import Mathlib

/-!
Verification of the comprehension-as-code core against its specification.

The development shallowly embeds the modules referenced by the claims:

* `src/comprehension/schema/confidence.py` — `ConfidenceLevel`
* `src/comprehension/update/confidence_rules.py` — `EvidenceType`,
  `CONFIDENCE_TRANSITIONS`, `compute_confidence_transition`
* `src/comprehension/schema/observation.py` / `comprehension.py` — the
  `Observation`, `BeliefPrior`, `BeliefPosterior`, `Comprehension` records
* `src/comprehension/update/bayesian_update.py` — `bayesian_update`
* `src/comprehension/update/lifecycle.py` — `ObservationLifecycle`
* `src/comprehension/store/observation_index.py` — `get_prunable`
* `src/comprehension/convergence/similarity.py` — `reminds_me_of`
* `src/comprehension/convergence/accumulator.py` — `get_hotspots`

Python sets become `Finset String`; Python lists become `List`; SQLite REAL
similarity values become `Rat`; timestamps become `Nat` passed explicitly
(`datetime.now` is an input of the embedding); `raise ValueError` becomes
`Except.error`.
-/

/-- `ConfidenceLevel` from `schema/confidence.py`. -/
inductive ConfidenceLevel where
  | HIGH
  | MEDIUM
  | LOW
  | UNKNOWN
deriving DecidableEq, Repr, Fintype

/-- The `.value` string of each `ConfidenceLevel` member. -/
def confidenceValue : ConfidenceLevel → String
  | .HIGH => "high"
  | .MEDIUM => "medium"
  | .LOW => "low"
  | .UNKNOWN => "unknown"

/-- Rank realising the total order UNKNOWN < LOW < MEDIUM < HIGH used by the
spec to phrase monotonicity of the transition table. -/
def confidenceRank : ConfidenceLevel → Nat
  | .UNKNOWN => 0
  | .LOW => 1
  | .MEDIUM => 2
  | .HIGH => 3

/-- `EvidenceType` from `update/confidence_rules.py`. -/
inductive EvidenceType where
  | CONFIRMING
  | CONTRADICTING
  | NEUTRAL
deriving DecidableEq, Repr, Fintype

/-- The `.value` string of each `EvidenceType` member. -/
def evidenceValue : EvidenceType → String
  | .CONFIRMING => "confirming"
  | .CONTRADICTING => "contradicting"
  | .NEUTRAL => "neutral"

/-- The `CONFIDENCE_TRANSITIONS` dict literal of `confidence_rules.py`,
as an association list in the source's entry order. -/
def CONFIDENCE_TRANSITIONS :
    List ((ConfidenceLevel × EvidenceType) × ConfidenceLevel) :=
  [((.UNKNOWN, .CONFIRMING), .LOW),
   ((.UNKNOWN, .CONTRADICTING), .LOW),
   ((.UNKNOWN, .NEUTRAL), .UNKNOWN),
   ((.LOW, .CONFIRMING), .MEDIUM),
   ((.LOW, .CONTRADICTING), .LOW),
   ((.LOW, .NEUTRAL), .LOW),
   ((.MEDIUM, .CONFIRMING), .HIGH),
   ((.MEDIUM, .CONTRADICTING), .LOW),
   ((.MEDIUM, .NEUTRAL), .MEDIUM),
   ((.HIGH, .CONFIRMING), .HIGH),
   ((.HIGH, .CONTRADICTING), .MEDIUM),
   ((.HIGH, .NEUTRAL), .HIGH)]

/-- `compute_confidence_transition` from `confidence_rules.py`:
dict lookup with the current level as the default for unmapped pairs. -/
def compute_confidence_transition (current : ConfidenceLevel)
    (evidence_type : EvidenceType) : ConfidenceLevel :=
  (CONFIDENCE_TRANSITIONS.lookup (current, evidence_type)).getD current

/-- `Observation` from `schema/observation.py`. The free-form `context`
dict is modelled as an association list of strings. -/
structure Observation where
  id : String
  timestamp : Nat
  source : String
  event : String
  context : List (String × String)
  trace_ref : Option String
  spec : String
deriving DecidableEq, Repr

/-- `BeliefPrior` from `schema/comprehension.py`. -/
structure BeliefPrior where
  statement : String
  confidence : ConfidenceLevel
  source : String
  reasoning : Option String
deriving DecidableEq, Repr

/-- `BeliefPosterior` from `schema/comprehension.py`. -/
structure BeliefPosterior where
  statement : String
  confidence : ConfidenceLevel
  update_reasoning : String
  observations_used : List String
deriving DecidableEq, Repr

/-- `Comprehension` from `schema/comprehension.py`. -/
structure Comprehension where
  id : String
  topic : String
  domain : String
  prior : BeliefPrior
  observations : List String
  posterior : BeliefPosterior
  created : Nat
  updated : Nat
  version : Nat
  verified : Bool
  spec : String
deriving DecidableEq, Repr

/-- The `ValueError` message raised by `bayesian_update` when contradicting
evidence arrives without a replacement statement. -/
def contradictErrorMsg : String :=
  "Contradicting evidence requires a new belief statement. Provide new_statement parameter."

/-- `bayesian_update` from `update/bayesian_update.py`. `now` stands for the
`datetime.now(timezone.utc)` call; `raise ValueError` is `Except.error`. -/
def bayesian_update (observation : Observation) (comprehension : Comprehension)
    (evidence_type : EvidenceType) (new_statement : Option String)
    (update_reasoning : Option String) (now : Nat) :
    Except String Comprehension :=
  if observation.id ∈ comprehension.observations then
    Except.ok comprehension
  else if evidence_type = EvidenceType.CONTRADICTING ∧ new_statement = none then
    Except.error contradictErrorMsg
  else
    let old_confidence := comprehension.posterior.confidence
    let new_confidence := compute_confidence_transition old_confidence evidence_type
    let final_statement := new_statement.getD comprehension.posterior.statement
    let reasoning := update_reasoning.getD
      ("Observation " ++ observation.id ++ " (" ++ evidenceValue evidence_type ++
        ") changed confidence from " ++ confidenceValue old_confidence ++
        " to " ++ confidenceValue new_confidence)
    let new_posterior : BeliefPosterior :=
      { statement := final_statement
        confidence := new_confidence
        update_reasoning := reasoning
        observations_used :=
          comprehension.posterior.observations_used ++ [observation.id] }
    Except.ok
      { comprehension with
          posterior := new_posterior
          observations := comprehension.observations ++ [observation.id]
          updated := now
          version := comprehension.version + 1 }

/-- Claim C1 counterexample: the claim's consequence "CONTRADICTING never
increases confidence" is false at current = UNKNOWN, where the table maps
CONTRADICTING to LOW and UNKNOWN < LOW in the claim's own order. -/
theorem contradicting_increases_from_unknown :
    compute_confidence_transition ConfidenceLevel.UNKNOWN EvidenceType.CONTRADICTING
        = ConfidenceLevel.LOW ∧
      confidenceRank ConfidenceLevel.UNKNOWN <
        confidenceRank
          (compute_confidence_transition ConfidenceLevel.UNKNOWN
            EvidenceType.CONTRADICTING) := by
  decide

/-- Claim C1 (amended): `compute_confidence_transition` is total and matches
the transition table entry by entry; under the rank order
UNKNOWN < LOW < MEDIUM < HIGH, CONFIRMING never decreases confidence,
NEUTRAL is the identity, and CONTRADICTING never increases confidence for
every current level other than UNKNOWN, while from UNKNOWN it yields LOW. -/
theorem compute_confidence_transition_table :
    (compute_confidence_transition .UNKNOWN .CONFIRMING = .LOW ∧
     compute_confidence_transition .UNKNOWN .CONTRADICTING = .LOW ∧
     compute_confidence_transition .UNKNOWN .NEUTRAL = .UNKNOWN ∧
     compute_confidence_transition .LOW .CONFIRMING = .MEDIUM ∧
     compute_confidence_transition .LOW .CONTRADICTING = .LOW ∧
     compute_confidence_transition .LOW .NEUTRAL = .LOW ∧
     compute_confidence_transition .MEDIUM .CONFIRMING = .HIGH ∧
     compute_confidence_transition .MEDIUM .CONTRADICTING = .LOW ∧
     compute_confidence_transition .MEDIUM .NEUTRAL = .MEDIUM ∧
     compute_confidence_transition .HIGH .CONFIRMING = .HIGH ∧
     compute_confidence_transition .HIGH .CONTRADICTING = .MEDIUM ∧
     compute_confidence_transition .HIGH .NEUTRAL = .HIGH) ∧
    (∀ c : ConfidenceLevel,
      confidenceRank c ≤ confidenceRank (compute_confidence_transition c .CONFIRMING)) ∧
    (∀ c : ConfidenceLevel, c ≠ .UNKNOWN →
      confidenceRank (compute_confidence_transition c .CONTRADICTING) ≤ confidenceRank c) ∧
    (∀ c : ConfidenceLevel, compute_confidence_transition c .NEUTRAL = c) := by
  decide

/-- Witness for the amended C1 theorem at current = HIGH. -/
theorem compute_confidence_transition_table_witness :
    ConfidenceLevel.HIGH ≠ ConfidenceLevel.UNKNOWN ∧
      confidenceRank
          (compute_confidence_transition ConfidenceLevel.HIGH EvidenceType.CONTRADICTING)
        ≤ confidenceRank ConfidenceLevel.HIGH :=
  ⟨by decide,
    compute_confidence_transition_table.2.2.1 ConfidenceLevel.HIGH (by decide)⟩

/-- Sample observation, mirroring the fixtures of `test_bayesian_update.py`. -/
def obsA : Observation :=
  { id := "obs-001"
    timestamp := 0
    source := "agent/test"
    event := "API returned 200 on valid request"
    context := []
    trace_ref := none
    spec := "observation/v1" }

/-- Sample prior belief. -/
def priorA : BeliefPrior :=
  { statement := "api returns 200"
    confidence := ConfidenceLevel.LOW
    source := "documentation"
    reasoning := none }

/-- Sample posterior belief with no observations incorporated yet. -/
def posteriorA : BeliefPosterior :=
  { statement := "api returns 200"
    confidence := ConfidenceLevel.LOW
    update_reasoning := "initial belief"
    observations_used := [] }

/-- Sample comprehension that has not incorporated `obsA`. -/
def compA : Comprehension :=
  { id := "comp-001"
    topic := "api behavior"
    domain := "api"
    prior := priorA
    observations := []
    posterior := posteriorA
    created := 0
    updated := 0
    version := 1
    verified := false
    spec := "comprehension/v1" }

/-- Sample comprehension that already lists `obsA` in its provenance. -/
def compB : Comprehension :=
  { compA with
      observations := ["obs-001"]
      posterior := { posteriorA with observations_used := ["obs-001"] } }

/-- The comprehension produced by `bayesian_update obsA compA CONFIRMING`
at time 5, written out literally. -/
def compA1 : Comprehension :=
  { compA with
      posterior :=
        { statement := "api returns 200"
          confidence := ConfidenceLevel.MEDIUM
          update_reasoning :=
            "Observation obs-001 (confirming) changed confidence from low to medium"
          observations_used := ["obs-001"] }
      observations := ["obs-001"]
      updated := 5
      version := 2 }

/-- Claim C2: if the observation id already appears in the comprehension's
provenance, `bayesian_update` returns the input comprehension unchanged and
raises no error; consequently any successful update is idempotent — applying
the same observation a second time (at any later clock value) returns the
first result unchanged. -/
theorem bayesian_update_idempotent (observation : Observation)
    (comprehension : Comprehension) (evidence_type : EvidenceType)
    (new_statement update_reasoning : Option String) (now : Nat) :
    (observation.id ∈ comprehension.observations →
      bayesian_update observation comprehension evidence_type new_statement
          update_reasoning now = Except.ok comprehension) ∧
    (∀ c' : Comprehension, ∀ now2 : Nat,
      bayesian_update observation comprehension evidence_type new_statement
          update_reasoning now = Except.ok c' →
      bayesian_update observation c' evidence_type new_statement
          update_reasoning now2 = Except.ok c') := by
  constructor
  · intro h
    simp [bayesian_update, h]
  · intro c' now2 h
    have hmem : observation.id ∈ c'.observations := by
      by_cases hm : observation.id ∈ comprehension.observations
      · simp [bayesian_update, hm] at h
        exact h ▸ hm
      · by_cases hc : evidence_type = EvidenceType.CONTRADICTING ∧ new_statement = none
        · simp [bayesian_update, hm, hc] at h
        · simp [bayesian_update, hm, hc] at h
          rw [← h]
          simp
    simp [bayesian_update, hmem]

/-- Witness for C2: applying `obsA` to `compB`, whose provenance already
lists it, returns `compB` itself. -/
theorem bayesian_update_idempotent_witness :
    obsA.id ∈ compB.observations ∧
      bayesian_update obsA compB EvidenceType.CONFIRMING none none 0
        = Except.ok compB :=
  ⟨by decide,
    (bayesian_update_idempotent obsA compB EvidenceType.CONFIRMING none none 0).1
      (by decide)⟩

/-- Claim C3 counterexample: contradicting evidence without a replacement
statement does NOT raise when the observation is already incorporated — the
idempotency check at the top of `bayesian_update` returns the input belief
before the validation runs. -/
theorem contradicting_without_statement_can_succeed :
    bayesian_update obsA compB EvidenceType.CONTRADICTING none none 0
      = Except.ok compB := by
  simp [bayesian_update, obsA, compB, compA, posteriorA]

/-- Claim C3 (amended): for every observation not yet incorporated into the
comprehension, `bayesian_update` with CONTRADICTING evidence and no new
statement raises the InvalidUpdate `ValueError`, surfaced to the caller. -/
theorem contradicting_requires_new_statement (observation : Observation)
    (comprehension : Comprehension) (update_reasoning : Option String) (now : Nat)
    (h : observation.id ∉ comprehension.observations) :
    bayesian_update observation comprehension EvidenceType.CONTRADICTING none
        update_reasoning now = Except.error contradictErrorMsg := by
  simp [bayesian_update, h]

/-- Witness for the amended C3 theorem: `obsA` is not incorporated in
`compA`, and the call errors. -/
theorem contradicting_requires_new_statement_witness :
    obsA.id ∉ compA.observations ∧
      bayesian_update obsA compA EvidenceType.CONTRADICTING none none 0
        = Except.error contradictErrorMsg :=
  ⟨by decide, contradicting_requires_new_statement obsA compA none 0 (by decide)⟩

/-- Claim C4: when `bayesian_update` incorporates a fresh observation (its id
not yet in `observations`; the data-model invariant that
`posterior.observations_used` only holds ids from `observations` is assumed),
the new comprehension appends the id once to both provenance lists, keeping
the prior entries in order, and bumps the version by exactly one. -/
theorem bayesian_update_provenance (observation : Observation)
    (comprehension : Comprehension) (evidence_type : EvidenceType)
    (new_statement update_reasoning : Option String) (now : Nat)
    (c' : Comprehension)
    (hnew : observation.id ∉ comprehension.observations)
    (hinv : ∀ x ∈ comprehension.posterior.observations_used,
      x ∈ comprehension.observations)
    (hok : bayesian_update observation comprehension evidence_type new_statement
        update_reasoning now = Except.ok c') :
    c'.observations = comprehension.observations ++ [observation.id] ∧
    c'.posterior.observations_used
      = comprehension.posterior.observations_used ++ [observation.id] ∧
    c'.observations.count observation.id = 1 ∧
    c'.posterior.observations_used.count observation.id = 1 ∧
    c'.version = comprehension.version + 1 := by
  have husednew : observation.id ∉ comprehension.posterior.observations_used :=
    fun hx => hnew (hinv _ hx)
  by_cases hc : evidence_type = EvidenceType.CONTRADICTING ∧ new_statement = none
  · simp [bayesian_update, hnew, hc] at hok
  · simp [bayesian_update, hnew, hc] at hok
    rw [← hok]
    refine ⟨rfl, rfl, ?_, ?_, rfl⟩
    · simp [List.count_append, List.count_eq_zero.mpr hnew]
    · simp [List.count_append, List.count_eq_zero.mpr husednew]

/-- Witness for C4: incorporating `obsA` into `compA` with CONFIRMING
evidence at time 5 yields `compA1`. -/
theorem bayesian_update_provenance_witness :
    obsA.id ∉ compA.observations ∧
      compA1.observations = compA.observations ++ [obsA.id] ∧
      compA1.posterior.observations_used
        = compA.posterior.observations_used ++ [obsA.id] ∧
      compA1.observations.count obsA.id = 1 ∧
      compA1.posterior.observations_used.count obsA.id = 1 ∧
      compA1.version = compA.version + 1 :=
  ⟨by decide,
    bayesian_update_provenance obsA compA EvidenceType.CONFIRMING none none 5
      compA1 (by decide) (by decide) (by rfl)⟩

/-- `ObservationState` from `update/lifecycle.py`. -/
inductive ObservationState where
  | PENDING
  | INCORPORATED
  | COLLECTIBLE
deriving DecidableEq, Repr

/-- The in-memory `ObservationLifecycle` tracker state: its two Python sets
`_pending` and `_incorporated`. -/
structure ObservationLifecycle where
  pending : Finset String
  incorporated : Finset String
deriving DecidableEq

/-- `ObservationLifecycle.__init__`: both sets start empty. -/
def emptyLifecycle : ObservationLifecycle :=
  { pending := ∅, incorporated := ∅ }

/-- `ObservationLifecycle.register`: unconditionally adds the id to the
pending set. -/
def register (l : ObservationLifecycle) (observation_id : String) :
    ObservationLifecycle :=
  { l with pending := insert observation_id l.pending }

/-- `ObservationLifecycle.mark_incorporated`: discards the id from pending
and adds it to incorporated. -/
def mark_incorporated (l : ObservationLifecycle) (observation_id : String) :
    ObservationLifecycle :=
  { pending := l.pending.erase observation_id
    incorporated := insert observation_id l.incorporated }

/-- `ObservationLifecycle.get_state`: checks the pending set first, then the
incorporated set, and raises `KeyError` for untracked ids. -/
def get_state (l : ObservationLifecycle) (observation_id : String) :
    Except String ObservationState :=
  if observation_id ∈ l.pending then Except.ok ObservationState.PENDING
  else if observation_id ∈ l.incorporated then Except.ok ObservationState.INCORPORATED
  else Except.error ("Unknown observation: " ++ observation_id)

/-- `ObservationLifecycle.get_pending`: a copy of the pending set. -/
def get_pending (l : ObservationLifecycle) : Finset String :=
  l.pending

/-- `ObservationLifecycle.get_collectible`: a copy of the incorporated set. -/
def get_collectible (l : ObservationLifecycle) : Finset String :=
  l.incorporated

/-- `ObservationIndex.get_prunable` from `store/observation_index.py`: the
persisted `observation_pruned` table is the `pruned` set; the function takes
the lifecycle's collectible set and removes the already-pruned ids (with an
early empty return when nothing is incorporated). -/
def get_prunable (pruned : Finset String) (lifecycle : ObservationLifecycle) :
    Finset String :=
  let incorporated := get_collectible lifecycle
  if incorporated = ∅ then ∅ else incorporated \ pruned

/-- Claim C5 (code evaluated at the failing input): after
`mark_incorporated "obs-001"`, a subsequent `register "obs-001"` re-adds the
id to the pending set, and since `get_state` checks the pending set first it
reports PENDING — even though the id is still in the collectible set. The
spec requires register not to demote an INCORPORATED id. -/
theorem register_demotes_after_incorporation :
    get_state (register (mark_incorporated emptyLifecycle "obs-001") "obs-001")
        "obs-001" = Except.ok ObservationState.PENDING ∧
      "obs-001" ∈ get_collectible
        (register (mark_incorporated emptyLifecycle "obs-001") "obs-001") := by
  constructor
  · simp [get_state, register, mark_incorporated, emptyLifecycle]
  · simp [get_collectible, register, mark_incorporated, emptyLifecycle]

/-- The early empty return in `get_prunable` coincides with the plain set
difference. -/
theorem get_prunable_eq_sdiff (pruned : Finset String)
    (l : ObservationLifecycle) :
    get_prunable pruned l = get_collectible l \ pruned := by
  by_cases h : get_collectible l = ∅
  · simp [get_prunable, h]
  · simp [get_prunable, h]

/-- Claim C8: `get_prunable` returns exactly the lifecycle's incorporated set
minus the pruned set, and an id outside the incorporated set — in particular
one that is only PENDING — never appears in the result. -/
theorem get_prunable_spec (pruned : Finset String) (l : ObservationLifecycle) :
    get_prunable pruned l = get_collectible l \ pruned ∧
    (∀ x : String, x ∉ l.incorporated → x ∉ get_prunable pruned l) := by
  refine ⟨get_prunable_eq_sdiff pruned l, fun x hx hmem => ?_⟩
  rw [get_prunable_eq_sdiff pruned l] at hmem
  exact hx (Finset.mem_sdiff.mp hmem).1

/-- Witness for C8: with incorporated = {"obs-001", "obs-002"} and
pruned = {"obs-002"}, only "obs-001" is prunable and the merely pending
"obs-003" is absent. -/
theorem get_prunable_spec_witness :
    (get_prunable {"obs-002"}
        { pending := {"obs-003"}, incorporated := {"obs-001", "obs-002"} }
      = get_collectible
          { pending := {"obs-003"}, incorporated := {"obs-001", "obs-002"} }
        \ {"obs-002"}) ∧
    ("obs-003" ∉
      ({ pending := {"obs-003"}, incorporated := {"obs-001", "obs-002"}} :
          ObservationLifecycle).incorporated ∧
      "obs-003" ∉ get_prunable {"obs-002"}
        { pending := {"obs-003"}, incorporated := {"obs-001", "obs-002"} }) :=
  ⟨(get_prunable_spec {"obs-002"}
      { pending := {"obs-003"}, incorporated := {"obs-001", "obs-002"} }).1,
    by decide,
    (get_prunable_spec {"obs-002"}
      { pending := {"obs-003"}, incorporated := {"obs-001", "obs-002"} }).2
      "obs-003" (by decide)⟩

/-- Claim C10: after `mark_incorporated x` followed by `register x`, the id
is simultaneously in `get_pending` and `get_collectible`; `get_state`
reports PENDING (the pending set is checked first) while `get_prunable`
still offers the id for pruning whenever it has no pruned marker. -/
theorem lifecycle_pending_and_collectible (l : ObservationLifecycle)
    (x : String) (pruned : Finset String) (s : ObservationLifecycle)
    (hs : s = register (mark_incorporated l x) x) :
    x ∈ get_pending s ∧
    x ∈ get_collectible s ∧
    get_state s x = Except.ok ObservationState.PENDING ∧
    (x ∉ pruned → x ∈ get_prunable pruned s) := by
  subst hs
  refine ⟨?_, ?_, ?_, ?_⟩
  · simp [get_pending, register]
  · simp [get_collectible, register, mark_incorporated]
  · simp [get_state, register]
  · intro hx
    have hmem : x ∈ get_collectible (register (mark_incorporated l x) x) := by
      simp [get_collectible, register, mark_incorporated]
    rw [get_prunable_eq_sdiff pruned (register (mark_incorporated l x) x)]
    exact Finset.mem_sdiff.mpr ⟨hmem, hx⟩

/-- Witness for C10 at x = "obs-001" on the empty tracker with no pruned
markers. -/
theorem lifecycle_pending_and_collectible_witness :
    "obs-001" ∈ get_pending (register (mark_incorporated emptyLifecycle "obs-001") "obs-001") ∧
    "obs-001" ∈ get_collectible (register (mark_incorporated emptyLifecycle "obs-001") "obs-001") ∧
    get_state (register (mark_incorporated emptyLifecycle "obs-001") "obs-001") "obs-001"
      = Except.ok ObservationState.PENDING ∧
    ("obs-001" ∉ (∅ : Finset String) →
      "obs-001" ∈ get_prunable ∅
        (register (mark_incorporated emptyLifecycle "obs-001") "obs-001")) :=
  lifecycle_pending_and_collectible emptyLifecycle "obs-001" ∅
    (register (mark_incorporated emptyLifecycle "obs-001") "obs-001") rfl

/-- A Python-style heap of `Comprehension` objects: addresses paired with
the value stored there. Mutating an object in place would change the value
found at its address; `model_copy` allocates at a fresh address. -/
abbrev Heap : Type :=
  List (Nat × Comprehension)

/-- A fresh address: one past the largest address in use. -/
def freshAddr (heap : Heap) : Nat :=
  (heap.map Prod.fst).foldr max 0 + 1

/-- `bayesian_update` at the level of object references: the belief argument
is an address into the heap. The idempotent branch returns the input
reference with the heap untouched (`return comprehension`); the update
branch builds the new comprehension with `model_copy` — allocation at a
fresh address — and leaves every existing object as it was. An address not
on the heap cannot arise in Python and is reported as an error. -/
def bayesian_update_ref (observation : Observation) (r : Nat) (heap : Heap)
    (evidence_type : EvidenceType) (new_statement : Option String)
    (update_reasoning : Option String) (now : Nat) :
    Except String (Nat × Heap) :=
  match heap.lookup r with
  | none => Except.error "invalid reference"
  | some comprehension =>
    if observation.id ∈ comprehension.observations then
      Except.ok (r, heap)
    else
      match bayesian_update observation comprehension evidence_type
          new_statement update_reasoning now with
      | Except.error e => Except.error e
      | Except.ok c' =>
        let fresh := freshAddr heap
        Except.ok (fresh, heap ++ [(fresh, c')])

/-- Every list element is bounded by the `foldr max` of the list. -/
theorem le_foldr_max (l : List Nat) (a : Nat) (h : a ∈ l) :
    a ≤ l.foldr max 0 := by
  induction l with
  | nil => cases h
  | cons x xs ih =>
    rcases List.mem_cons.mp h with rfl | hxs
    · exact le_max_left _ _
    · exact le_trans (ih hxs) (le_max_right _ _)

/-- The fresh address is not the address of any live object. -/
theorem freshAddr_not_mem (heap : Heap) : freshAddr heap ∉ heap.map Prod.fst := by
  intro hmem
  have := le_foldr_max (heap.map Prod.fst) (freshAddr heap) hmem
  simp only [freshAddr] at this
  omega

/-- A successful `lookup` is preserved by appending entries on the right. -/
theorem lookup_append_left {l₁ l₂ : Heap} {a : Nat} {v : Comprehension}
    (h : l₁.lookup a = some v) : (l₁ ++ l₂).lookup a = some v := by
  induction l₁ with
  | nil => simp [List.lookup] at h
  | cons x xs ih =>
    rw [List.cons_append]
    cases x with
    | mk k c =>
      by_cases hk : a = k
      · simp [List.lookup, hk] at h ⊢
        exact h
      · simp [List.lookup, beq_false_of_ne hk] at h ⊢
        exact ih h

/-- Claim C9: `bayesian_update` never mutates its input belief. In the heap
model, a successful call leaves every previously stored comprehension —
in particular the input — bitwise identical at its address, and whenever the
observation is fresh for the input belief, the returned reference is a newly
constructed object, not any pre-existing address. -/
theorem bayesian_update_never_mutates (observation : Observation) (r : Nat)
    (heap : Heap) (evidence_type : EvidenceType)
    (new_statement update_reasoning : Option String) (now : Nat)
    (r' : Nat) (heap' : Heap)
    (hok : bayesian_update_ref observation r heap evidence_type new_statement
        update_reasoning now = Except.ok (r', heap')) :
    (∀ a : Nat, ∀ c₀ : Comprehension,
      heap.lookup a = some c₀ → heap'.lookup a = some c₀) ∧
    (∀ c : Comprehension, heap.lookup r = some c →
      observation.id ∉ c.observations → r' ∉ heap.map Prod.fst) := by
  cases hl : heap.lookup r with
  | none =>
    simp only [bayesian_update_ref, hl] at hok
    exact Except.noConfusion hok
  | some comprehension =>
    simp only [bayesian_update_ref, hl] at hok
    by_cases hm : observation.id ∈ comprehension.observations
    · rw [if_pos hm] at hok
      injection hok with hpair
      injection hpair with hr hh
      subst hr; subst hh
      refine ⟨fun a c₀ h => h, fun c hc hnot => ?_⟩
      injection hc with hc
      subst hc
      exact absurd hm hnot
    · rw [if_neg hm] at hok
      cases hup : bayesian_update observation comprehension evidence_type
          new_statement update_reasoning now with
      | error e =>
        rw [hup] at hok
        exact Except.noConfusion hok
      | ok c' =>
        rw [hup] at hok
        injection hok with hpair
        injection hpair with hr hh
        subst hr; subst hh
        refine ⟨fun a c₀ h => lookup_append_left h, fun c hc hnot => ?_⟩
        exact freshAddr_not_mem heap

/-- Witness for C9: updating `compA` stored at address 0 leaves address 0
unchanged and returns the fresh address 1. -/
theorem bayesian_update_never_mutates_witness :
    (∀ a : Nat, ∀ c₀ : Comprehension,
      ([(0, compA)] : Heap).lookup a = some c₀ →
      ([(0, compA), (1, compA1)] : Heap).lookup a = some c₀) ∧
    (∀ c : Comprehension, ([(0, compA)] : Heap).lookup 0 = some c →
      obsA.id ∉ c.observations → 1 ∉ ([(0, compA)] : Heap).map Prod.fst) :=
  bayesian_update_never_mutates obsA 0 [(0, compA)] EvidenceType.CONFIRMING
    none none 5 1 [(0, compA), (1, compA1)] (by rfl)

/-- `SimilarityMatch` from `convergence/similarity.py`, with the float
similarity modelled as a rational. -/
structure SimilarityMatch where
  comprehension_id : String
  domain : String
  similarity : Rat
deriving DecidableEq, Repr

/-- The candidate loop of `SimilarityFinder.reminds_me_of`, traversing the
`query_knn` result in order with the `matches` accumulator: skip the query
itself, skip candidates whose comprehension was deleted from the repository,
skip same-domain candidates, convert distance to similarity as
`1 - distance`, skip below-threshold candidates, and stop as soon as `limit`
matches have been collected. -/
def remindsMeOfLoop (query_id query_domain : String) (limit : Nat)
    (min_similarity : Rat) (repo : String → Option Comprehension) :
    List (String × Rat) → List SimilarityMatch → List SimilarityMatch
  | [], acc => acc
  | (comp_id, distance) :: rest, acc =>
    if comp_id = query_id then
      remindsMeOfLoop query_id query_domain limit min_similarity repo rest acc
    else
      match repo comp_id with
      | none =>
        remindsMeOfLoop query_id query_domain limit min_similarity repo rest acc
      | some other =>
        if other.domain = query_domain then
          remindsMeOfLoop query_id query_domain limit min_similarity repo rest acc
        else
          let similarity := 1 - distance
          if similarity < min_similarity then
            remindsMeOfLoop query_id query_domain limit min_similarity repo rest acc
          else
            let acc2 := acc ++ [⟨comp_id, other.domain, similarity⟩]
            if limit ≤ acc2.length then acc2
            else remindsMeOfLoop query_id query_domain limit min_similarity repo rest acc2

/-- `SimilarityFinder.reminds_me_of`: the repository is abstracted as a
lookup function and the vector store's `query_knn` answer (for
`limit := 3 * limit`, nearest first) as the `candidates` list. -/
def reminds_me_of (comprehension : Comprehension) (limit : Nat)
    (min_similarity : Rat) (repo : String → Option Comprehension)
    (candidates : List (String × Rat)) : List SimilarityMatch :=
  remindsMeOfLoop comprehension.id comprehension.domain limit min_similarity
    repo candidates []

/-- Every match produced by the loop either was already in the accumulator
or passed all the filters: not the query id, a domain from the repository
different from the query domain, and similarity at least the threshold. -/
theorem remindsMeOfLoop_mem (query_id query_domain : String) (limit : Nat)
    (min_similarity : Rat) (repo : String → Option Comprehension) :
    ∀ (cands : List (String × Rat)) (acc : List SimilarityMatch)
      (m : SimilarityMatch),
      m ∈ remindsMeOfLoop query_id query_domain limit min_similarity repo cands acc →
      m ∈ acc ∨
        (m.comprehension_id ≠ query_id ∧ m.domain ≠ query_domain ∧
          min_similarity ≤ m.similarity)
  | [], acc, m => fun h => Or.inl h
  | (comp_id, distance) :: rest, acc, m => by
    intro h
    rw [remindsMeOfLoop] at h
    by_cases hself : comp_id = query_id
    · rw [if_pos hself] at h
      exact remindsMeOfLoop_mem query_id query_domain limit min_similarity repo
        rest acc m h
    · rw [if_neg hself] at h
      cases hrepo : repo comp_id with
      | none =>
        rw [hrepo] at h
        exact remindsMeOfLoop_mem query_id query_domain limit min_similarity repo
          rest acc m h
      | some other =>
        rw [hrepo] at h
        dsimp only at h
        by_cases hdom : other.domain = query_domain
        · rw [if_pos hdom] at h
          exact remindsMeOfLoop_mem query_id query_domain limit min_similarity repo
            rest acc m h
        · rw [if_neg hdom] at h
          by_cases hsim : 1 - distance < min_similarity
          · rw [if_pos hsim] at h
            exact remindsMeOfLoop_mem query_id query_domain limit min_similarity repo
              rest acc m h
          · rw [if_neg hsim] at h
            have hpass : m ∈ acc ++ [(⟨comp_id, other.domain, 1 - distance⟩ : SimilarityMatch)] →
                m ∈ acc ∨
                  (m.comprehension_id ≠ query_id ∧ m.domain ≠ query_domain ∧
                    min_similarity ≤ m.similarity) := by
              intro hm
              rcases List.mem_append.mp hm with hacc | hone
              · exact Or.inl hacc
              · rcases List.mem_singleton.mp hone with rfl
                exact Or.inr ⟨hself, hdom, le_of_not_lt hsim⟩
            by_cases hstop : limit ≤ acc.length + 1
            · simp only [List.length_append, List.length_singleton] at h
              rw [if_pos hstop] at h
              exact hpass h
            · simp only [List.length_append, List.length_singleton] at h
              rw [if_neg hstop] at h
              rcases remindsMeOfLoop_mem query_id query_domain limit min_similarity
                repo rest _ m h with hacc | hfilters
              · exact hpass hacc
              · exact Or.inr hfilters

/-- The loop never grows the accumulator past `limit` once it starts below
it. -/
theorem remindsMeOfLoop_length (query_id query_domain : String) (limit : Nat)
    (min_similarity : Rat) (repo : String → Option Comprehension) :
    ∀ (cands : List (String × Rat)) (acc : List SimilarityMatch),
      acc.length < limit →
      (remindsMeOfLoop query_id query_domain limit min_similarity repo cands
          acc).length ≤ limit
  | [], acc => by
    intro h
    rw [remindsMeOfLoop]
    exact le_of_lt h
  | (comp_id, distance) :: rest, acc => by
    intro h
    rw [remindsMeOfLoop]
    by_cases hself : comp_id = query_id
    · rw [if_pos hself]
      exact remindsMeOfLoop_length query_id query_domain limit min_similarity repo
        rest acc h
    · rw [if_neg hself]
      cases hrepo : repo comp_id with
      | none =>
        exact remindsMeOfLoop_length query_id query_domain limit min_similarity repo
          rest acc h
      | some other =>
        dsimp only
        by_cases hdom : other.domain = query_domain
        · rw [if_pos hdom]
          exact remindsMeOfLoop_length query_id query_domain limit min_similarity repo
            rest acc h
        · rw [if_neg hdom]
          by_cases hsim : 1 - distance < min_similarity
          · rw [if_pos hsim]
            exact remindsMeOfLoop_length query_id query_domain limit min_similarity repo
              rest acc h
          · rw [if_neg hsim]
            by_cases hstop : limit ≤ acc.length + 1
            · simp only [List.length_append, List.length_singleton]
              rw [if_pos hstop]
              simp only [List.length_append, List.length_singleton]
              omega
            · simp only [List.length_append, List.length_singleton]
              rw [if_neg hstop]
              refine remindsMeOfLoop_length query_id query_domain limit min_similarity
                repo rest _ ?_
              simp only [List.length_append, List.length_singleton]
              omega

/-- When the candidates arrive in non-decreasing distance order and every
accumulated match dominates the similarity of every remaining candidate,
the loop's output is sorted by non-increasing similarity. -/
theorem remindsMeOfLoop_sorted (query_id query_domain : String) (limit : Nat)
    (min_similarity : Rat) (repo : String → Option Comprehension) :
    ∀ (cands : List (String × Rat)) (acc : List SimilarityMatch),
      cands.Pairwise (fun a b => a.2 ≤ b.2) →
      acc.Pairwise (fun a b => b.similarity ≤ a.similarity) →
      (∀ m ∈ acc, ∀ p ∈ cands, 1 - p.2 ≤ m.similarity) →
      (remindsMeOfLoop query_id query_domain limit min_similarity repo cands
          acc).Pairwise (fun a b => b.similarity ≤ a.similarity)
  | [], acc => by
    intro _ hacc _
    rw [remindsMeOfLoop]
    exact hacc
  | (comp_id, distance) :: rest, acc => by
    intro hcands hacc hbound
    have hd : ∀ p ∈ rest, distance ≤ p.2 :=
      fun p hp => (List.pairwise_cons.mp hcands).1 p hp
    have hrest : rest.Pairwise (fun a b => a.2 ≤ b.2) :=
      (List.pairwise_cons.mp hcands).2
    have hboundrest : ∀ m ∈ acc, ∀ p ∈ rest, 1 - p.2 ≤ m.similarity :=
      fun m hm p hp => hbound m hm p (List.mem_cons_of_mem _ hp)
    rw [remindsMeOfLoop]
    by_cases hself : comp_id = query_id
    · rw [if_pos hself]
      exact remindsMeOfLoop_sorted query_id query_domain limit min_similarity repo
        rest acc hrest hacc hboundrest
    · rw [if_neg hself]
      cases hrepo : repo comp_id with
      | none =>
        exact remindsMeOfLoop_sorted query_id query_domain limit min_similarity repo
          rest acc hrest hacc hboundrest
      | some other =>
        dsimp only
        by_cases hdom : other.domain = query_domain
        · rw [if_pos hdom]
          exact remindsMeOfLoop_sorted query_id query_domain limit min_similarity repo
            rest acc hrest hacc hboundrest
        · rw [if_neg hdom]
          by_cases hsim : 1 - distance < min_similarity
          · rw [if_pos hsim]
            exact remindsMeOfLoop_sorted query_id query_domain limit min_similarity repo
              rest acc hrest hacc hboundrest
          · rw [if_neg hsim]
            have hacc2 : (acc ++ [(⟨comp_id, other.domain, 1 - distance⟩ :
                SimilarityMatch)]).Pairwise
                (fun a b => b.similarity ≤ a.similarity) := by
              refine List.pairwise_append.mpr ⟨hacc, List.pairwise_singleton _ _, ?_⟩
              intro a ha b hb
              rcases List.mem_singleton.mp hb with rfl
              exact hbound a ha (comp_id, distance) (List.mem_cons_self _ _)
            have hbound2 : ∀ m ∈ acc ++ [(⟨comp_id, other.domain, 1 - distance⟩ :
                SimilarityMatch)], ∀ p ∈ rest, 1 - p.2 ≤ m.similarity := by
              intro m hm p hp
              rcases List.mem_append.mp hm with hmacc | hmone
              · exact hboundrest m hmacc p hp
              · rcases List.mem_singleton.mp hmone with rfl
                exact sub_le_sub_left (hd p hp) 1
            by_cases hstop : limit ≤ acc.length + 1
            · simp only [List.length_append, List.length_singleton]
              rw [if_pos hstop]
              exact hacc2
            · simp only [List.length_append, List.length_singleton]
              rw [if_neg hstop]
              exact remindsMeOfLoop_sorted query_id query_domain limit min_similarity
                repo rest _ hrest hacc2 hbound2

/-- Claim C6: given the vector store's contract — candidates nearest first
(non-decreasing distance) and at most `3 * limit` of them, as `query_knn`
is called with `limit * 3` — `reminds_me_of` never returns the query belief
itself, never returns a match from the query's domain, only returns matches
with similarity `1 - distance` at least `min_similarity`, returns at most
`limit` matches, and returns them in non-increasing similarity order. -/
theorem reminds_me_of_spec (q : Comprehension) (limit : Nat)
    (min_similarity : Rat) (repo : String → Option Comprehension)
    (candidates : List (String × Rat))
    (hsorted : candidates.Pairwise (fun a b => a.2 ≤ b.2))
    (hlen : candidates.length ≤ 3 * limit) :
    (∀ m ∈ reminds_me_of q limit min_similarity repo candidates,
      m.comprehension_id ≠ q.id ∧ m.domain ≠ q.domain ∧
        min_similarity ≤ m.similarity) ∧
    (reminds_me_of q limit min_similarity repo candidates).length ≤ limit ∧
    (reminds_me_of q limit min_similarity repo candidates).Pairwise
      (fun a b => b.similarity ≤ a.similarity) := by
  refine ⟨?_, ?_, ?_⟩
  · intro m hm
    rcases remindsMeOfLoop_mem q.id q.domain limit min_similarity repo candidates
        [] m hm with habs | h
    · exact absurd habs (List.not_mem_nil m)
    · exact h
  · cases limit with
    | zero =>
      have hnil : candidates = [] := by
        have : candidates.length = 0 := by omega
        exact List.eq_nil_of_length_eq_zero this
      subst hnil
      rw [reminds_me_of, remindsMeOfLoop]
      simp
    | succ n =>
      exact remindsMeOfLoop_length q.id q.domain (n + 1) min_similarity repo
        candidates [] (Nat.succ_pos n)
  · exact remindsMeOfLoop_sorted q.id q.domain limit min_similarity repo
      candidates [] hsorted List.Pairwise.nil
      (fun m hm => absurd hm (List.not_mem_nil m))

/-- A comprehension in a different domain from `compA`, indexed in the
vector store. -/
def compOther : Comprehension :=
  { compA with id := "comp-002", domain := "database" }

/-- A one-entry repository holding only `compOther`. -/
def repoW : String → Option Comprehension :=
  fun i => if i = "comp-002" then some compOther else none

/-- Witness for C6 with one candidate at distance 1/10, limit 5 and
threshold 3/4. -/
theorem reminds_me_of_spec_witness :
    (∀ m ∈ reminds_me_of compA 5 (3 / 4) repoW [("comp-002", 1 / 10)],
      m.comprehension_id ≠ compA.id ∧ m.domain ≠ compA.domain ∧
        (3 / 4 : Rat) ≤ m.similarity) ∧
    (reminds_me_of compA 5 (3 / 4) repoW [("comp-002", 1 / 10)]).length ≤ 5 ∧
    (reminds_me_of compA 5 (3 / 4) repoW [("comp-002", 1 / 10)]).Pairwise
      (fun a b => b.similarity ≤ a.similarity) :=
  reminds_me_of_spec compA 5 (3 / 4) repoW [("comp-002", 1 / 10)]
    (by decide) (by decide)

/-- A row of the `similarity_edges` table from `convergence/accumulator.py`,
keyed by (source_id, target_id). -/
structure SimilarityEdge where
  source_id : String
  target_id : String
  similarity : Rat
  source_domain : String
  target_domain : String
  created : Nat
deriving DecidableEq, Repr

/-- `AccumulationHotspot` from `convergence/accumulator.py`. -/
structure AccumulationHotspot where
  comprehension_id : String
  domain_count : Nat
  connection_count : Nat
  avg_similarity : Rat
deriving DecidableEq, Repr

/-- The group of edges with the given target id — the SQL
`GROUP BY target_id` group, i.e. the target's incoming edges. -/
def targetGroup (edges : List SimilarityEdge) (t : String) :
    List SimilarityEdge :=
  edges.filter (fun e => e.target_id = t)

/-- `COUNT(DISTINCT source_domain)` over the target's group. -/
def domainCountOf (edges : List SimilarityEdge) (t : String) : Nat :=
  ((targetGroup edges t).map (fun e => e.source_domain)).dedup.length

/-- `COUNT(*)` over the target's group. -/
def connectionCountOf (edges : List SimilarityEdge) (t : String) : Nat :=
  (targetGroup edges t).length

/-- `AVG(similarity)` over the target's group. -/
def avgSimilarityOf (edges : List SimilarityEdge) (t : String) : Rat :=
  ((targetGroup edges t).map (fun e => e.similarity)).sum
    / ((targetGroup edges t).length : Rat)

/-- The aggregation row the `get_hotspots` query produces for one target. -/
def mkHotspot (edges : List SimilarityEdge) (t : String) :
    AccumulationHotspot :=
  { comprehension_id := t
    domain_count := domainCountOf edges t
    connection_count := connectionCountOf edges t
    avg_similarity := avgSimilarityOf edges t }

/-- The `ORDER BY domain_count DESC, avg_similarity DESC` relation:
non-strict lexicographic comparison, larger first. -/
def hotspotOrder (a b : AccumulationHotspot) : Prop :=
  b.domain_count < a.domain_count ∨
    (a.domain_count = b.domain_count ∧ b.avg_similarity ≤ a.avg_similarity)

instance : DecidableRel hotspotOrder := fun a b => by
  unfold hotspotOrder
  infer_instance

instance : IsTotal AccumulationHotspot hotspotOrder :=
  ⟨fun a b => by
    unfold hotspotOrder
    rcases lt_trichotomy a.domain_count b.domain_count with h | h | h
    · exact Or.inr (Or.inl h)
    · rcases le_total b.avg_similarity a.avg_similarity with hle | hle
      · exact Or.inl (Or.inr ⟨h, hle⟩)
      · exact Or.inr (Or.inr ⟨h.symm, hle⟩)
    · exact Or.inl (Or.inl h)⟩

instance : IsTrans AccumulationHotspot hotspotOrder :=
  ⟨fun a b c hab hbc => by
    unfold hotspotOrder at hab hbc ⊢
    rcases hab with h1 | ⟨he1, ha1⟩
    · rcases hbc with h2 | ⟨he2, ha2⟩
      · exact Or.inl (lt_trans h2 h1)
      · exact Or.inl (he2 ▸ h1)
    · rcases hbc with h2 | ⟨he2, ha2⟩
      · exact Or.inl (he1 ▸ h2)
      · exact Or.inr ⟨he1.trans he2, le_trans ha2 ha1⟩⟩

/-- `AccumulationTracker.get_hotspots` from `convergence/accumulator.py`:
the SQL `GROUP BY target_id` / `HAVING COUNT(DISTINCT source_domain) >= ?
AND COUNT(*) >= ?` / `ORDER BY domain_count DESC, avg_similarity DESC`
aggregation over the edge table, modelled over the list of edge rows. -/
def get_hotspots (edges : List SimilarityEdge)
    (min_domains min_connections : Nat) : List AccumulationHotspot :=
  let targets := (edges.map (fun e => e.target_id)).dedup
  let hotspots := targets.map (mkHotspot edges)
  let qualified := hotspots.filter
    (fun h => decide (min_domains ≤ h.domain_count ∧
      min_connections ≤ h.connection_count))
  List.insertionSort hotspotOrder qualified

/-- Counting, in a duplicate-free list, the entries equal to `t` that also
satisfy `q` gives one exactly when `t` is present and satisfies `q`. -/
theorem countP_key_of_nodup (l : List String) (hl : l.Nodup) (t : String)
    (q : String → Bool) :
    l.countP (fun x => decide (x = t) && q x)
      = if t ∈ l ∧ q t = true then 1 else 0 := by
  induction l with
  | nil => simp
  | cons x xs ih =>
    rw [List.countP_cons, ih (List.nodup_cons.mp hl).2]
    by_cases hxt : x = t
    · subst hxt
      have hnx : x ∉ xs := (List.nodup_cons.mp hl).1
      by_cases hq : q x = true
      · simp [hnx, hq]
      · simp [hnx, hq]
    · by_cases htxs : t ∈ xs
      · simp [hxt, htxs, Ne.symm hxt]
      · simp [hxt, htxs, Ne.symm hxt]

/-- Claim C7: `get_hotspots` returns exactly one hotspot per target id whose
incoming-edge group has at least `min_domains` distinct source domains and
at least `min_connections` edges; every returned hotspot carries the
aggregates of its group (in particular `avg_similarity` is the group's
arithmetic mean of similarities); and the output is ordered by
`domain_count` descending, then `avg_similarity` descending. A target whose
edges come from a single distinct domain is therefore excluded whenever
`min_domains = 2`, regardless of its edge count. -/
theorem get_hotspots_spec (edges : List SimilarityEdge)
    (min_domains min_connections : Nat) :
    (∀ t : String,
      ((get_hotspots edges min_domains min_connections).filter
          (fun h => decide (h.comprehension_id = t))).length
        = if t ∈ edges.map (fun e => e.target_id) ∧
              min_domains ≤ domainCountOf edges t ∧
              min_connections ≤ connectionCountOf edges t
          then 1 else 0) ∧
    (∀ h ∈ get_hotspots edges min_domains min_connections,
      h = mkHotspot edges h.comprehension_id ∧
      h.avg_similarity = avgSimilarityOf edges h.comprehension_id ∧
      min_domains ≤ h.domain_count ∧ min_connections ≤ h.connection_count) ∧
    (get_hotspots edges min_domains min_connections).Pairwise hotspotOrder := by
  refine ⟨?_, ?_, ?_⟩
  · intro t
    rw [← List.countP_eq_length_filter]
    simp only [get_hotspots]
    rw [(List.perm_insertionSort hotspotOrder _).countP_eq]
    rw [List.countP_filter, List.countP_map]
    show List.countP
        (fun x => decide (x = t) && decide (min_domains ≤ domainCountOf edges x ∧
          min_connections ≤ connectionCountOf edges x))
        ((edges.map (fun e => e.target_id)).dedup) = _
    refine Eq.trans
      (countP_key_of_nodup ((edges.map (fun e => e.target_id)).dedup)
        (List.nodup_dedup _) t
        (fun x => decide (min_domains ≤ domainCountOf edges x ∧
          min_connections ≤ connectionCountOf edges x))) ?_
    simp only [List.mem_dedup, decide_eq_true_eq]
  · intro h hmem
    have hmem2 := (List.perm_insertionSort hotspotOrder _).mem_iff.mp hmem
    rcases List.mem_filter.mp hmem2 with ⟨hmem3, hcond⟩
    rcases List.mem_map.mp hmem3 with ⟨t, htmem, rfl⟩
    have hc := of_decide_eq_true hcond
    exact ⟨rfl, rfl, hc.1, hc.2⟩
  · exact List.sorted_insertionSort hotspotOrder _

/-- The edge table of the spec's convergence scenario: three domains
record an edge of similarity 4/5 into the belief "target". -/
def edgesW : List SimilarityEdge :=
  [{ source_id := "comp-a", target_id := "target", similarity := 4 / 5,
     source_domain := "api", target_domain := "patterns", created := 0 },
   { source_id := "comp-b", target_id := "target", similarity := 4 / 5,
     source_domain := "database", target_domain := "patterns", created := 0 },
   { source_id := "comp-c", target_id := "target", similarity := 4 / 5,
     source_domain := "auth", target_domain := "patterns", created := 0 }]

/-- Witness for C7 on the scenario edge table with min_domains = 2 and
min_connections = 3. -/
theorem get_hotspots_spec_witness :
    (∀ t : String,
      ((get_hotspots edgesW 2 3).filter
          (fun h => decide (h.comprehension_id = t))).length
        = if t ∈ edgesW.map (fun e => e.target_id) ∧
              2 ≤ domainCountOf edgesW t ∧ 3 ≤ connectionCountOf edgesW t
          then 1 else 0) ∧
    (∀ h ∈ get_hotspots edgesW 2 3,
      h = mkHotspot edgesW h.comprehension_id ∧
      h.avg_similarity = avgSimilarityOf edgesW h.comprehension_id ∧
      2 ≤ h.domain_count ∧ 3 ≤ h.connection_count) ∧
    (get_hotspots edgesW 2 3).Pairwise hotspotOrder :=
  get_hotspots_spec edgesW 2 3
